import Mathlib

/-!
Shallow embedding of the orchestration code of `predict.py` from the
magic-image-refiner repository: the scheduler registry, the conditioning-image
resize, the HDR brightness factors, and the `predict` request orchestrator with
its validation, effect ordering and cleanup behaviour.

External collaborators (PIL resampling, the RealESRGAN 2x super-resolution
model, the OpenCV HDR fusion, the diffusion pipelines) are modelled as
parameters of the embedding (the `Externals` structure); the properties the
source code relies on (a resample call returns an image of the requested size,
the 2x super-resolution model doubles each dimension) are stated as explicit
well-formedness predicates and assumed only where a claim needs them.
Machine floats of the source are embedded as exact rationals, with Python's
`round` (half to even) made explicit.
-/

namespace MagicImageRefiner

/-- An in-memory raster image: width, height, and an RGB pixel function
(the model of a PIL image already converted to mode RGB, as `load_image`
produces). -/
structure PImage where
  width : ℕ
  height : ℕ
  px : ℕ → ℕ → ℕ × ℕ × ℕ

/-- The four scheduler classes imported from diffusers and registered in the
`SCHEDULERS` dict of `predict.py`. -/
inductive SchedClass where
  | DDIMScheduler
  | DPMSolverMultistepScheduler
  | EulerAncestralDiscreteScheduler
  | EulerDiscreteScheduler
deriving DecidableEq, Repr

/-- A scheduler object: its class together with the configuration it was
constructed from (`cls.from_config(config)`); the configuration is abstracted
to an identifier. -/
structure SchedObj where
  cls : SchedClass
  config : ℕ
deriving DecidableEq, Repr

/-- `SCHEDULERS[name].from_config(cfg)`: constructs a scheduler object of the
given class from the given configuration. -/
def SchedClass.from_config (c : SchedClass) (cfg : ℕ) : SchedObj :=
  ⟨c, cfg⟩

/-- The two long-lived pipelines of the Predictor. -/
inductive PipeKind where
  | img2img
  | inpaint
deriving DecidableEq, Repr

/-- Observable per-request effects of `predict`, in program order: entropy
draws, generator creation, image/mask loading, model invocations
(super-resolution and diffusion), pipeline mutations, output saving, and the
cleanup block (`del` statements and `torch.cuda.empty_cache()`). -/
inductive Effect where
  | urandomDraw (nbytes : ℕ)
  | mkGenerator (seed : ℤ)
  | loadImage (path : String)
  | esrganInfer
  | hdrFusion
  | loadMask (path : String)
  | setSafetyCheckerNone
  | setScheduler (cls : SchedClass)
  | enableXformers
  | diffusionInfer (k : PipeKind)
  | save (path : String)
  | delGenerator
  | delFinalImage
  | delControlImage
  | delLoadedImage
  | delOutputs
  | delMaskImage
  | emptyCache
deriving DecidableEq, Repr

/-- The arguments dict assembled by `predict` and passed to the selected
pipeline. The generator is represented by the seed it was constructed with
(`torch.Generator("cuda").manual_seed(seed)`). -/
structure Args where
  prompt : Option String
  image : PImage
  control_image : PImage
  strength : ℚ
  controlnet_conditioning_scale : ℚ
  negative_prompt : String
  guidance_scale : ℚ
  generator_seed : ℤ
  num_inference_steps : ℤ
  guess_mode : Bool
  mask_image : Option PImage

/-- The external collaborators the orchestration code calls into; they are
outside the repository (PIL, RealESRGAN, OpenCV, diffusers) and are therefore
parameters of the embedding. -/
structure Externals where
  /-- `img.resize((w, h), resample=Image.LANCZOS)`. -/
  resampleLanczos : PImage → ℕ → ℕ → PImage
  /-- `self.ESRGAN_models[2].predict(img)`: the 2x super-resolution model. -/
  esrgan2 : PImage → PImage
  /-- `self.create_hdr_effect(img, hdr)`: OpenCV exposure fusion. -/
  hdrBlend : PImage → ℚ → PImage
  /-- `pipe(**args).images`: a diffusion pipeline call. -/
  diffusion : PipeKind → Args → List PImage

/-- PIL contract: `resize((w, h))` returns an image of exactly the requested
size. -/
def ResampleWF (E : Externals) : Prop :=
  ∀ img w h, (E.resampleLanczos img w h).width = w ∧
    (E.resampleLanczos img w h).height = h

/-- Contract of the 2x super-resolution model (spec §4.1, glossary): it scales
each pixel dimension by its scale factor 2. -/
def Esrgan2WF (E : Externals) : Prop :=
  ∀ img, (E.esrgan2 img).width = 2 * img.width ∧
    (E.esrgan2 img).height = 2 * img.height

/-- Python's `round` on the value of a nonnegative expression: round half to
even (banker's rounding), applied to the exact rational value. -/
def pyRound (q : ℚ) : ℤ :=
  if q - ⌊q⌋ < 1 / 2 then ⌊q⌋
  else if 1 / 2 < q - ⌊q⌋ then ⌊q⌋ + 1
  else if ⌊q⌋ % 2 = 0 then ⌊q⌋ else ⌊q⌋ + 1

/-- The dimension computation of `resize_for_condition_image` for one input
dimension `dim` of an image of size `w`×`h`:
`int(round(dim * (1024 / min(h, w)) / 64)) * 64`. -/
def condDim (w h dim : ℕ) : ℕ :=
  (pyRound ((dim : ℚ) * ((1024 : ℚ) / ((min h w : ℕ) : ℚ)) / 64)).toNat * 64

/-- `Predictor.resize_for_condition_image(input_image, resolution)`, together
with the model-invocation effects it performs. For `"original"` it returns
`input_image.copy()` (same size and pixels). Otherwise it converts to RGB (the
identity on our RGB rasters), resizes to the rounded multiple-of-64 size with
the Lanczos filter, and for `"2048"` additionally runs the 2x super-resolution
model. -/
def resize_for_condition_image (E : Externals) (input_image : PImage)
    (resolution : String) : PImage × List Effect :=
  if resolution = "original" then
    (input_image, [])
  else
    let width := input_image.width
    let height := input_image.height
    let new_height := condDim width height height
    let new_width := condDim width height width
    let img := E.resampleLanczos input_image new_width new_height
    if resolution = "2048" then (E.esrgan2 img, [Effect.esrganInfer])
    else (img, [])

/-- `Predictor.calculate_brightness_factors(hdr_intensity)`. -/
def calculate_brightness_factors (hdr_intensity : ℚ) : List ℚ :=
  if 0 < hdr_intensity then
    [1 - 0.9 * hdr_intensity, 1 - 0.7 * hdr_intensity, 1 - 0.45 * hdr_intensity,
     1 - 0.25 * hdr_intensity, 1, 1 + 0.2 * hdr_intensity,
     1 + 0.4 * hdr_intensity, 1 + 0.6 * hdr_intensity, 1 + 0.8 * hdr_intensity]
  else
    List.replicate 9 1

/-- The `SCHEDULERS` dict of `predict.py`, as a lookup function. -/
def SCHEDULERS (name : String) : Option SchedClass :=
  if name = "DDIM" then some SchedClass.DDIMScheduler
  else if name = "DPMSolverMultistep" then some SchedClass.DPMSolverMultistepScheduler
  else if name = "K_EULER_ANCESTRAL" then some SchedClass.EulerAncestralDiscreteScheduler
  else if name = "K_EULER" then some SchedClass.EulerDiscreteScheduler
  else none

/-- The per-request parameters of `predict`, with the types of the embedding
(floats as rationals, optional fields as `Option`). -/
structure Request where
  prompt : Option String
  image : String
  mask : Option String
  resolution : String
  resemblance : ℚ
  creativity : ℚ
  hdr : ℚ
  scheduler : String
  steps : ℤ
  guidance_scale : ℚ
  seed : Option ℤ
  negative_prompt : String
  guess_mode : Bool

/-- The request-boundary validation declared by the `Input(...)` annotations of
`predict`: `resolution` and `scheduler` restricted to their `choices` sets,
and the `ge`/`le` numeric ranges. Enforced by the serving layer before the
body of `predict` runs. -/
def validRequest (r : Request) : Bool :=
  (r.resolution == "original" || r.resolution == "1024" || r.resolution == "2048") &&
  (SCHEDULERS r.scheduler).isSome &&
  decide (0 ≤ r.resemblance) && decide (r.resemblance ≤ 1) &&
  decide (0 ≤ r.creativity) && decide (r.creativity ≤ 1) &&
  decide (0 ≤ r.hdr) && decide (r.hdr ≤ 1) &&
  decide (1 / 10 ≤ r.guidance_scale) && decide (r.guidance_scale ≤ 30)

/-- The ambient environment of one `predict` call: the two bytes that
`os.urandom(2)` would return, and the image each readable path decodes to
(already converted to RGB by `load_image`). -/
structure Env where
  urandomByte0 : Fin 256
  urandomByte1 : Fin 256
  fileImage : String → PImage

/-- `int.from_bytes(b, "big")` for a 2-byte string `b`. -/
def intFromBytes2BE (b0 b1 : Fin 256) : ℤ :=
  (b0.val : ℤ) * 256 + (b1.val : ℤ)

/-- Seed resolution of `predict`: the explicit seed when given, otherwise
`int.from_bytes(os.urandom(2), "big")`. -/
def resolveSeed (env : Env) (seedParam : Option ℤ) : ℤ :=
  match seedParam with
  | some s => s
  | none => intFromBytes2BE env.urandomByte0 env.urandomByte1

/-- One long-lived pipeline object's mutable fields touched by `predict`. -/
structure Pipe where
  scheduler : SchedObj
  safety_checker : Bool
  xformers : Bool
deriving DecidableEq, Repr

/-- The Predictor's two long-lived pipelines. -/
structure PipesState where
  img2img : Pipe
  inpaint : Pipe
deriving DecidableEq, Repr

def selectPipe (ps : PipesState) : PipeKind → Pipe
  | PipeKind.img2img => ps.img2img
  | PipeKind.inpaint => ps.inpaint

def setPipe (ps : PipesState) : PipeKind → Pipe → PipesState
  | PipeKind.img2img, p => { ps with img2img := p }
  | PipeKind.inpaint, p => { ps with inpaint := p }

/-- The errors `predict` can raise in the embedding; every one of them is an
argument-validation failure (the spec's InvalidArgument category). -/
inductive PredictError where
  | boundaryInvalid
  | cantUpscaleAndInpaint
  | maskSizeMismatch
  | invalidScheduler
deriving DecidableEq, Repr

/-- Spec §7 error taxonomy: every modelled error is in the InvalidArgument
category (decode errors and resource exhaustion are not modelled: the
environment decodes every path). -/
def isInvalidArgument : PredictError → Bool
  | PredictError.boundaryInvalid => true
  | PredictError.cantUpscaleAndInpaint => true
  | PredictError.maskSizeMismatch => true
  | PredictError.invalidScheduler => true

/-- The result of one `predict` call: the ordered effect trace, the (possibly
mutated) pipeline state, and the returned output paths or the raised error. -/
structure PredictResult where
  trace : List Effect
  pipes : PipesState
  output : Except PredictError (List String)

def outputOk (o : Except PredictError (List String)) : Bool :=
  match o with
  | Except.ok _ => true
  | Except.error _ => false

/-- The cleanup block at the end of `predict`: the `del` statements in source
order (`generator`, `final_image`, `control_image`, `loaded_image`, `outputs`,
and `mask_image` when a mask was given) followed by
`torch.cuda.empty_cache()`. -/
def cleanupTrace (hasMask : Bool) : List Effect :=
  [Effect.delGenerator, Effect.delFinalImage, Effect.delControlImage,
   Effect.delLoadedImage, Effect.delOutputs] ++
  (if hasMask then [Effect.delMaskImage] else []) ++ [Effect.emptyCache]

/-- The tail of `predict` once a pipeline has been selected and the mask
checks (if any) have passed: disable the safety checker, replace the
scheduler by `SCHEDULERS[scheduler].from_config(pipe.scheduler.config)`,
enable xformers attention, run the pipeline, save each output image to
`/tmp/out-{i}.png`, then run the cleanup block and return the paths. -/
def runInference (E : Externals) (ps : PipesState) (k : PipeKind) (r : Request)
    (args : Args) (t : List Effect) (hasMask : Bool) : PredictResult :=
  let pipe := selectPipe ps k
  match SCHEDULERS r.scheduler with
  | none =>
      ⟨t ++ [Effect.setSafetyCheckerNone], setPipe ps k { pipe with safety_checker := false },
       Except.error PredictError.invalidScheduler⟩
  | some cls =>
      let pipe2 : Pipe := { scheduler := SchedClass.from_config cls pipe.scheduler.config,
                            safety_checker := false, xformers := true }
      let images := E.diffusion k args
      let paths := (List.range images.length).map
        (fun i => "/tmp/out-" ++ toString i ++ ".png")
      ⟨t ++ [Effect.setSafetyCheckerNone, Effect.setScheduler cls, Effect.enableXformers,
             Effect.diffusionInfer k] ++ paths.map Effect.save ++ cleanupTrace hasMask,
       setPipe ps k pipe2, Except.ok paths⟩

/-- The body of `Predictor.predict`, once past the request boundary: resolve
the seed, create the generator, load the image, build the conditioning image,
apply the HDR blend, assemble the argument dict, then either run the img2img
pipeline, or — when a mask is given — load the mask, reject upscale+inpaint,
reject a mask/image size mismatch, and otherwise run the inpaint pipeline. -/
def predictBody (E : Externals) (env : Env) (ps : PipesState) (r : Request) :
    PredictResult :=
  let seed := resolveSeed env r.seed
  let seedTrace : List Effect :=
    match r.seed with
    | some _ => []
    | none => [Effect.urandomDraw 2]
  let loaded_image := env.fileImage r.image
  let rc := resize_for_condition_image E loaded_image r.resolution
  let final_image := E.hdrBlend rc.1 r.hdr
  let preTrace := seedTrace ++ [Effect.mkGenerator seed, Effect.loadImage r.image] ++
    rc.2 ++ [Effect.hdrFusion]
  let args : Args :=
    { prompt := r.prompt, image := final_image, control_image := final_image,
      strength := r.creativity, controlnet_conditioning_scale := r.resemblance,
      negative_prompt := r.negative_prompt, guidance_scale := r.guidance_scale,
      generator_seed := seed, num_inference_steps := r.steps,
      guess_mode := r.guess_mode, mask_image := none }
  match r.mask with
  | none => runInference E ps PipeKind.img2img r args preTrace false
  | some maskPath =>
      let mask_image := env.fileImage maskPath
      let t := preTrace ++ [Effect.loadMask maskPath]
      if r.resolution ≠ "original" then
        ⟨t, ps, Except.error PredictError.cantUpscaleAndInpaint⟩
      else if mask_image.width ≠ loaded_image.width ∨
          mask_image.height ≠ loaded_image.height then
        ⟨t, ps, Except.error PredictError.maskSizeMismatch⟩
      else
        runInference E ps PipeKind.inpaint r { args with mask_image := some mask_image }
          t true

/-- One full `predict` call: the serving layer's boundary validation followed
by the body. -/
def predict (E : Externals) (env : Env) (ps : PipesState) (r : Request) :
    PredictResult :=
  if validRequest r then predictBody E env ps r
  else ⟨[], ps, Except.error PredictError.boundaryInvalid⟩

/-! Concrete instances used to instantiate the hypotheses of the theorems
below and to evaluate the embedding at explicit inputs. -/

/-- A 512×512 black RGB image. -/
def img512 : PImage := ⟨512, 512, fun _ _ => (0, 0, 0)⟩

/-- A 256×256 black RGB image. -/
def img256 : PImage := ⟨256, 256, fun _ _ => (0, 0, 0)⟩

/-- A concrete model of the external collaborators: the resampler returns an
image of the requested size, the 2x super-resolution model doubles each
dimension, the HDR blend keeps the image, and the diffusion pipeline returns
one image. -/
def sampleExternals : Externals :=
  { resampleLanczos := fun img w h => ⟨w, h, img.px⟩,
    esrgan2 := fun img => ⟨2 * img.width, 2 * img.height, img.px⟩,
    hdrBlend := fun img _ => img,
    diffusion := fun _ _ => [img512] }

/-- An environment where every path decodes to the 512×512 image. -/
def sampleEnv : Env := ⟨1, 2, fun _ => img512⟩

/-- An environment where the mask path decodes to a 256×256 image while every
other path decodes to the 512×512 image. -/
def envMismatch : Env :=
  ⟨1, 2, fun p => if p = "mask.png" then img256 else img512⟩

def samplePipes : PipesState :=
  ⟨⟨⟨SchedClass.DDIMScheduler, 0⟩, true, false⟩,
   ⟨⟨SchedClass.DDIMScheduler, 1⟩, true, false⟩⟩

/-- A request with the default parameter values of `predict` and an explicit
seed. -/
def reqPlain : Request :=
  { prompt := some "a red bicycle", image := "in.png", mask := none,
    resolution := "original", resemblance := 3 / 4, creativity := 1 / 4,
    hdr := 0, scheduler := "DDIM", steps := 20, guidance_scale := 7,
    seed := some 42, negative_prompt := "lowres", guess_mode := false }

def reqMaskBadSize : Request := { reqPlain with mask := some "mask.png" }

def reqMask2048 : Request :=
  { reqPlain with mask := some "mask.png", resolution := "2048" }

def reqNoSeed : Request := { reqPlain with seed := none }

/-! Helper lemmas about the rounded dimension computation. -/

theorem floor_le_pyRound (q : ℚ) : ⌊q⌋ ≤ pyRound q := by
  unfold pyRound
  split_ifs <;> omega

theorem le_pyRound (n : ℤ) (q : ℚ) (h : (n : ℚ) ≤ q) : n ≤ pyRound q :=
  le_trans (Int.le_floor.mpr h) (floor_le_pyRound q)

theorem sixteen_le_scaled (w h dim : ℕ) (hw : 0 < w) (hh : 0 < h)
    (hd : min h w ≤ dim) :
    (16 : ℚ) ≤ (dim : ℚ) * ((1024 : ℚ) / ((min h w : ℕ) : ℚ)) / 64 := by
  have hm : (0 : ℚ) < ((min h w : ℕ) : ℚ) := by
    have : 0 < min h w := lt_min hh hw
    exact_mod_cast this
  have hdq : ((min h w : ℕ) : ℚ) ≤ (dim : ℚ) := by exact_mod_cast hd
  have key : (dim : ℚ) * ((1024 : ℚ) / ((min h w : ℕ) : ℚ)) / 64
      = 16 * ((dim : ℚ) / ((min h w : ℕ) : ℚ)) := by
    field_simp
    ring
  rw [key]
  have h1 : (1 : ℚ) ≤ (dim : ℚ) / ((min h w : ℕ) : ℚ) := (one_le_div hm).mpr hdq
  linarith

theorem condDim_ge_1024 (w h dim : ℕ) (hw : 0 < w) (hh : 0 < h)
    (hd : min h w ≤ dim) : 1024 ≤ condDim w h dim := by
  unfold condDim
  have h16 : (16 : ℤ) ≤ pyRound ((dim : ℚ) * ((1024 : ℚ) / ((min h w : ℕ) : ℚ)) / 64) :=
    le_pyRound 16 _ (sixteen_le_scaled w h dim hw hh hd)
  omega

theorem condDim_dvd (w h dim : ℕ) : 64 ∣ condDim w h dim := by
  unfold condDim
  exact Dvd.intro_left _ rfl

theorem resize_dims_1024 (E : Externals) (hR : ResampleWF E) (img : PImage) :
    (resize_for_condition_image E img "1024").1.width =
      condDim img.width img.height img.width ∧
    (resize_for_condition_image E img "1024").1.height =
      condDim img.width img.height img.height := by
  unfold resize_for_condition_image
  rw [if_neg (by decide), if_neg (by decide)]
  exact ⟨(hR _ _ _).1, (hR _ _ _).2⟩

theorem resize_dims_2048 (E : Externals) (hR : ResampleWF E) (hE : Esrgan2WF E)
    (img : PImage) :
    (resize_for_condition_image E img "2048").1.width =
      2 * condDim img.width img.height img.width ∧
    (resize_for_condition_image E img "2048").1.height =
      2 * condDim img.width img.height img.height := by
  unfold resize_for_condition_image
  rw [if_neg (by decide), if_pos rfl]
  refine ⟨?_, ?_⟩
  · rw [(hE _).1, (hR _ _ _).1]
  · rw [(hE _).2, (hR _ _ _).2]

/-- C1. For every input image with positive dimensions and every resolution
tier in {"1024", "2048"}, the conditioning image returned by
`resize_for_condition_image` has width and height that are each a positive
multiple of 64; for tier "1024" they equal
`round(dim * (1024 / min(width, height)) / 64) * 64` for the corresponding
input dimension, and for tier "2048" they are exactly twice that value, the
resized image being additionally passed through the 2x super-resolution
model, which doubles each dimension. -/
theorem C1_condition_image_dims (E : Externals) (hR : ResampleWF E)
    (hE : Esrgan2WF E) (img : PImage) (hw : 0 < img.width) (hh : 0 < img.height)
    (res : String) (hres : res = "1024" ∨ res = "2048") :
    (64 ∣ (resize_for_condition_image E img res).1.width ∧
     64 ∣ (resize_for_condition_image E img res).1.height ∧
     0 < (resize_for_condition_image E img res).1.width ∧
     0 < (resize_for_condition_image E img res).1.height) ∧
    (res = "1024" →
      (resize_for_condition_image E img res).1.width =
        condDim img.width img.height img.width ∧
      (resize_for_condition_image E img res).1.height =
        condDim img.width img.height img.height) ∧
    (res = "2048" →
      (resize_for_condition_image E img res).1.width =
        2 * condDim img.width img.height img.width ∧
      (resize_for_condition_image E img res).1.height =
        2 * condDim img.width img.height img.height) := by
  have hwd := condDim_ge_1024 img.width img.height img.width hw hh (min_le_right _ _)
  have hht := condDim_ge_1024 img.width img.height img.height hw hh (min_le_left _ _)
  have hdw := condDim_dvd img.width img.height img.width
  have hdh := condDim_dvd img.width img.height img.height
  rcases hres with hres | hres
  · subst hres
    obtain ⟨e1, e2⟩ := resize_dims_1024 E hR img
    refine ⟨⟨?_, ?_, ?_, ?_⟩, fun _ => ⟨e1, e2⟩, fun hcon => absurd hcon (by decide)⟩
    · rw [e1]; exact hdw
    · rw [e2]; exact hdh
    · rw [e1]; omega
    · rw [e2]; omega
  · subst hres
    obtain ⟨e1, e2⟩ := resize_dims_2048 E hR hE img
    refine ⟨⟨?_, ?_, ?_, ?_⟩, fun hcon => absurd hcon (by decide), fun _ => ⟨e1, e2⟩⟩
    · rw [e1]; exact Dvd.dvd.mul_left hdw 2
    · rw [e2]; exact Dvd.dvd.mul_left hdh 2
    · rw [e1]; omega
    · rw [e2]; omega

/-- Witness for C1: the amended statement instantiated at the 512×512 image
and tier "1024". -/
theorem C1_condition_image_dims_witness :
    64 ∣ (resize_for_condition_image sampleExternals img512 "1024").1.width ∧
    0 < (resize_for_condition_image sampleExternals img512 "1024").1.width ∧
    (resize_for_condition_image sampleExternals img512 "1024").1.width =
      condDim img512.width img512.height img512.width := by
  have h := C1_condition_image_dims sampleExternals
    (fun img w h => ⟨rfl, rfl⟩) (fun img => ⟨rfl, rfl⟩) img512
    (by decide) (by decide) "1024" (Or.inl rfl)
  exact ⟨h.1.1, h.1.2.2.1, (h.2.1 rfl).1⟩

/-- Counterexample to C1 as stated: at the 512×512 input image and tier
"2048", the returned width is 2048, while the claimed formula
`round(dim * (1024 / min(width, height)) / 64) * 64` gives 1024. -/
theorem C1_counterexample :
    (resize_for_condition_image sampleExternals img512 "2048").1.width = 2048 ∧
    condDim img512.width img512.height img512.width = 1024 ∧
    (resize_for_condition_image sampleExternals img512 "2048").1.width ≠
      condDim img512.width img512.height img512.width := by
  have h1 : (resize_for_condition_image sampleExternals img512 "2048").1.width = 2048 := by
    simp only [resize_for_condition_image, sampleExternals, img512]
    norm_num
    unfold condDim pyRound
    norm_num
    decide
  have h2 : condDim img512.width img512.height img512.width = 1024 := by
    show condDim 512 512 512 = 1024
    unfold condDim pyRound
    norm_num
    decide
  refine ⟨h1, h2, ?_⟩
  rw [h1, h2]
  norm_num

/-- C5. For every input image, `resize_for_condition_image(image, "original")`
returns a copy with identical size and pixel content, performs no model
invocation, and (the embedding being pure, the source calling `.copy()`)
leaves the input unchanged. -/
theorem C5_original_returns_copy (E : Externals) (img : PImage) :
    resize_for_condition_image E img "original" = (img, []) := by
  unfold resize_for_condition_image
  rw [if_pos rfl]

/-- C7. For every hdr intensity `i` with `0 < i ≤ 1`,
`calculate_brightness_factors(i)` returns exactly the nine factors
`[1-0.9i, 1-0.7i, 1-0.45i, 1-0.25i, 1.0, 1+0.2i, 1+0.4i, 1+0.6i, 1+0.8i]`
in that order, and for `i = 0` it returns nine factors all equal to 1.0. -/
theorem C7_brightness_factors (i : ℚ) (h0 : 0 < i) (_h1 : i ≤ 1) :
    calculate_brightness_factors i =
      [1 - 0.9 * i, 1 - 0.7 * i, 1 - 0.45 * i, 1 - 0.25 * i, 1,
       1 + 0.2 * i, 1 + 0.4 * i, 1 + 0.6 * i, 1 + 0.8 * i] ∧
    calculate_brightness_factors 0 = [1, 1, 1, 1, 1, 1, 1, 1, 1] := by
  constructor
  · rw [calculate_brightness_factors, if_pos h0]
  · rw [calculate_brightness_factors, if_neg (lt_irrefl 0)]
    rfl

/-- Witness for C7 at intensity 1/2. -/
theorem C7_brightness_factors_witness :
    calculate_brightness_factors (1 / 2) =
      [11 / 20, 13 / 20, 31 / 40, 7 / 8, 1, 11 / 10, 6 / 5, 13 / 10, 7 / 5] ∧
    calculate_brightness_factors 0 = [1, 1, 1, 1, 1, 1, 1, 1, 1] := by
  have h := C7_brightness_factors (1 / 2) (by norm_num) (by norm_num)
  refine ⟨h.1.trans ?_, h.2⟩
  norm_num

/-! Structural lemmas about the effect traces of `predict`. -/

/-- The only model invocation `resize_for_condition_image` performs is the 2x
super-resolution call, and exactly when the tier is "2048". -/
theorem resize_trace (E : Externals) (img : PImage) (res : String) :
    (resize_for_condition_image E img res).2 =
      if res = "2048" then [Effect.esrganInfer] else [] := by
  unfold resize_for_condition_image
  split_ifs with h1 h2 <;> simp_all

/-- The effects recorded before the pipeline-selection step of `predict`. -/
def preTraceOf (E : Externals) (env : Env) (r : Request) : List Effect :=
  (match r.seed with
   | some _ => []
   | none => [Effect.urandomDraw 2]) ++
  [Effect.mkGenerator (resolveSeed env r.seed), Effect.loadImage r.image] ++
  (resize_for_condition_image E (env.fileImage r.image) r.resolution).2 ++
  [Effect.hdrFusion]

theorem predictBody_mask_res_ne (E : Externals) (env : Env) (ps : PipesState)
    (r : Request) (m : String) (hm : r.mask = some m)
    (hres : r.resolution ≠ "original") :
    predictBody E env ps r =
      ⟨preTraceOf E env r ++ [Effect.loadMask m], ps,
       Except.error PredictError.cantUpscaleAndInpaint⟩ := by
  unfold predictBody preTraceOf
  rw [hm]
  simp only []
  rw [if_pos hres]

theorem predictBody_mask_size_mismatch (E : Externals) (env : Env)
    (ps : PipesState) (r : Request) (m : String) (hm : r.mask = some m)
    (hres : r.resolution = "original")
    (hsz : (env.fileImage m).width ≠ (env.fileImage r.image).width ∨
      (env.fileImage m).height ≠ (env.fileImage r.image).height) :
    predictBody E env ps r =
      ⟨preTraceOf E env r ++ [Effect.loadMask m], ps,
       Except.error PredictError.maskSizeMismatch⟩ := by
  unfold predictBody preTraceOf
  rw [hm]
  simp only []
  rw [if_neg (by simp [hres]), if_pos hsz]

/-- No effect of the pre-inference phase is a diffusion-pipeline call, a
cleanup action, or a cache release. -/
theorem preTraceOf_no_late_effects (E : Externals) (env : Env) (r : Request) :
    (∀ k, Effect.diffusionInfer k ∉ preTraceOf E env r) ∧
    Effect.delGenerator ∉ preTraceOf E env r ∧
    Effect.delFinalImage ∉ preTraceOf E env r ∧
    Effect.delControlImage ∉ preTraceOf E env r ∧
    Effect.delLoadedImage ∉ preTraceOf E env r ∧
    Effect.delOutputs ∉ preTraceOf E env r ∧
    Effect.delMaskImage ∉ preTraceOf E env r ∧
    Effect.emptyCache ∉ preTraceOf E env r := by
  unfold preTraceOf
  rw [resize_trace]
  cases r.seed <;> split_ifs <;> simp

/-- C2. For every request passing the boundary validation that supplies a mask
whose dimensions differ from the loaded image's dimensions, `predict` fails
with an InvalidArgument error and no inference call on a diffusion pipeline is
made. -/
theorem C2_mask_size_mismatch_rejected (E : Externals) (env : Env)
    (ps : PipesState) (r : Request) (m : String)
    (hv : validRequest r = true) (hm : r.mask = some m)
    (hsz : (env.fileImage m).width ≠ (env.fileImage r.image).width ∨
      (env.fileImage m).height ≠ (env.fileImage r.image).height) :
    (∃ e, (predict E env ps r).output = Except.error e ∧
      isInvalidArgument e = true) ∧
    (∀ k, Effect.diffusionInfer k ∉ (predict E env ps r).trace) := by
  unfold predict
  rw [if_pos hv]
  by_cases hres : r.resolution = "original"
  · rw [predictBody_mask_size_mismatch E env ps r m hm hres hsz]
    refine ⟨⟨PredictError.maskSizeMismatch, rfl, rfl⟩, fun k => ?_⟩
    have h := (preTraceOf_no_late_effects E env r).1 k
    simp only [List.mem_append, List.mem_singleton]
    rintro (hc | hc)
    · exact h hc
    · exact Effect.noConfusion hc
  · rw [predictBody_mask_res_ne E env ps r m hm hres]
    refine ⟨⟨PredictError.cantUpscaleAndInpaint, rfl, rfl⟩, fun k => ?_⟩
    have h := (preTraceOf_no_late_effects E env r).1 k
    simp only [List.mem_append, List.mem_singleton]
    rintro (hc | hc)
    · exact h hc
    · exact Effect.noConfusion hc

/-- Witness for C2: a request with a 256×256 mask against a 512×512 image is
rejected with an InvalidArgument error and no diffusion call appears in the
trace. -/
theorem C2_mask_size_mismatch_rejected_witness :
    (∃ e, (predict sampleExternals envMismatch samplePipes reqMaskBadSize).output
        = Except.error e ∧ isInvalidArgument e = true) ∧
    (∀ k, Effect.diffusionInfer k ∉
      (predict sampleExternals envMismatch samplePipes reqMaskBadSize).trace) := by
  refine C2_mask_size_mismatch_rejected sampleExternals envMismatch samplePipes
    reqMaskBadSize "mask.png" ?_ rfl ?_
  · simp [validRequest, reqMaskBadSize, reqPlain, SCHEDULERS]
    norm_num
  · left
    simp [envMismatch, reqMaskBadSize, reqPlain, img256, img512]

/-- C3 (amended). For every request passing the boundary validation that
supplies both a mask and a resolution tier other than "original", `predict`
fails with the InvalidArgument error "Can't upscale and inpaint at the same
time" and no diffusion-pipeline inference call is made; however, the 2x
super-resolution model is invoked before the rejection exactly when the tier
is "2048". -/
theorem C3_mask_upscale_rejected (E : Externals) (env : Env) (ps : PipesState)
    (r : Request) (m : String) (hv : validRequest r = true)
    (hm : r.mask = some m) (hres : r.resolution ≠ "original") :
    (predict E env ps r).output = Except.error PredictError.cantUpscaleAndInpaint ∧
    (∀ k, Effect.diffusionInfer k ∉ (predict E env ps r).trace) ∧
    (Effect.esrganInfer ∈ (predict E env ps r).trace ↔ r.resolution = "2048") := by
  unfold predict
  rw [if_pos hv]
  rw [predictBody_mask_res_ne E env ps r m hm hres]
  refine ⟨rfl, fun k => ?_, ?_⟩
  · have h := (preTraceOf_no_late_effects E env r).1 k
    simp only [List.mem_append, List.mem_singleton]
    rintro (hc | hc)
    · exact h hc
    · exact Effect.noConfusion hc
  · unfold preTraceOf
    rw [resize_trace]
    cases r.seed <;> split_ifs with h2048 <;> simp_all

/-- Witness for C3 (amended): at tier "1024" with a mask, the request is
rejected and no model at all was invoked. -/
theorem C3_mask_upscale_rejected_witness :
    (predict sampleExternals sampleEnv samplePipes
        { reqPlain with mask := some "mask.png", resolution := "1024" }).output
      = Except.error PredictError.cantUpscaleAndInpaint ∧
    Effect.esrganInfer ∉ (predict sampleExternals sampleEnv samplePipes
        { reqPlain with mask := some "mask.png", resolution := "1024" }).trace := by
  have h := C3_mask_upscale_rejected sampleExternals sampleEnv samplePipes
    { reqPlain with mask := some "mask.png", resolution := "1024" } "mask.png"
    (by simp [validRequest, reqPlain, SCHEDULERS]; norm_num) rfl (by simp [reqPlain])
  refine ⟨h.1, fun hc => ?_⟩
  have := h.2.2.mp hc
  simp at this

/-- Counterexample to C3 as stated: with a mask and tier "2048", the request
is rejected, but the 2x super-resolution model was invoked before the
rejection — its inference call is in the trace. -/
theorem C3_counterexample :
    Effect.esrganInfer ∈
      (predict sampleExternals sampleEnv samplePipes reqMask2048).trace ∧
    (predict sampleExternals sampleEnv samplePipes reqMask2048).output
      = Except.error PredictError.cantUpscaleAndInpaint := by
  constructor
  · rw [predict, if_pos (by simp [validRequest, reqMask2048, reqPlain, SCHEDULERS]; norm_num)]
    rw [predictBody_mask_res_ne sampleExternals sampleEnv samplePipes reqMask2048
      "mask.png" rfl (by simp [reqMask2048, reqPlain])]
    unfold preTraceOf
    rw [resize_trace]
    simp [reqMask2048, reqPlain]
  · rw [predict, if_pos (by simp [validRequest, reqMask2048, reqPlain, SCHEDULERS]; norm_num)]
    rw [predictBody_mask_res_ne sampleExternals sampleEnv samplePipes reqMask2048
      "mask.png" rfl (by simp [reqMask2048, reqPlain])]

theorem predictBody_mask_none (E : Externals) (env : Env) (ps : PipesState)
    (r : Request) (hm : r.mask = none) :
    ∃ args, predictBody E env ps r =
      runInference E ps PipeKind.img2img r args (preTraceOf E env r) false := by
  unfold predictBody preTraceOf
  rw [hm]
  exact ⟨_, rfl⟩

theorem predictBody_mask_some_ok (E : Externals) (env : Env) (ps : PipesState)
    (r : Request) (m : String) (hm : r.mask = some m)
    (hres : r.resolution = "original")
    (hsz : ¬((env.fileImage m).width ≠ (env.fileImage r.image).width ∨
      (env.fileImage m).height ≠ (env.fileImage r.image).height)) :
    ∃ args, predictBody E env ps r =
      runInference E ps PipeKind.inpaint r args
        (preTraceOf E env r ++ [Effect.loadMask m]) true := by
  unfold predictBody preTraceOf
  rw [hm]
  simp only []
  rw [if_neg (by simp [hres]), if_neg hsz]
  exact ⟨_, rfl⟩

theorem runInference_cases (E : Externals) (ps : PipesState) (k : PipeKind)
    (r : Request) (args : Args) (t : List Effect) (hasMask : Bool) :
    (∃ cls paths, SCHEDULERS r.scheduler = some cls ∧
      runInference E ps k r args t hasMask =
        ⟨t ++ [Effect.setSafetyCheckerNone, Effect.setScheduler cls,
               Effect.enableXformers, Effect.diffusionInfer k] ++
           paths.map Effect.save ++ cleanupTrace hasMask,
         setPipe ps k ⟨SchedClass.from_config cls (selectPipe ps k).scheduler.config,
           false, true⟩,
         Except.ok paths⟩) ∨
    (SCHEDULERS r.scheduler = none ∧
      runInference E ps k r args t hasMask =
        ⟨t ++ [Effect.setSafetyCheckerNone],
         setPipe ps k { selectPipe ps k with safety_checker := false },
         Except.error PredictError.invalidScheduler⟩) := by
  unfold runInference
  cases hs : SCHEDULERS r.scheduler with
  | none => exact Or.inr ⟨rfl, rfl⟩
  | some cls => exact Or.inl ⟨cls, _, rfl, rfl⟩

theorem getLast_cleanup (l : List Effect) (hasMask : Bool) :
    (l ++ cleanupTrace hasMask).getLast? = some Effect.emptyCache := by
  have h : l ++ cleanupTrace hasMask =
      (l ++ ([Effect.delGenerator, Effect.delFinalImage, Effect.delControlImage,
        Effect.delLoadedImage, Effect.delOutputs] ++
        (if hasMask then [Effect.delMaskImage] else []))) ++ [Effect.emptyCache] := by
    simp [cleanupTrace, List.append_assoc]
  rw [h, List.getLast?_concat]

/-- C4 (amended). Cleanup is performed only on the success path: when
`predict` returns successfully, the per-request tensors (generator,
final/control/loaded images, outputs, and the mask when one was given) are
deleted and the device cache is emptied as the last actions before control
returns; on every failure path no cleanup action and no cache release is
performed at all (the source has no try/finally around the inference call). -/
theorem C4_cleanup_only_on_success (E : Externals) (env : Env)
    (ps : PipesState) (r : Request) :
    (outputOk (predict E env ps r).output = true →
      (predict E env ps r).trace.getLast? = some Effect.emptyCache ∧
      Effect.delGenerator ∈ (predict E env ps r).trace ∧
      Effect.delFinalImage ∈ (predict E env ps r).trace ∧
      Effect.delControlImage ∈ (predict E env ps r).trace ∧
      Effect.delLoadedImage ∈ (predict E env ps r).trace ∧
      Effect.delOutputs ∈ (predict E env ps r).trace ∧
      (r.mask.isSome = true → Effect.delMaskImage ∈ (predict E env ps r).trace)) ∧
    (outputOk (predict E env ps r).output = false →
      Effect.delGenerator ∉ (predict E env ps r).trace ∧
      Effect.delFinalImage ∉ (predict E env ps r).trace ∧
      Effect.delControlImage ∉ (predict E env ps r).trace ∧
      Effect.delLoadedImage ∉ (predict E env ps r).trace ∧
      Effect.delOutputs ∉ (predict E env ps r).trace ∧
      Effect.delMaskImage ∉ (predict E env ps r).trace ∧
      Effect.emptyCache ∉ (predict E env ps r).trace) := by
  have hpre := preTraceOf_no_late_effects E env r
  unfold predict
  by_cases hv : validRequest r = true
  · rw [if_pos hv]
    cases hm : r.mask with
    | none =>
        obtain ⟨args, heq⟩ := predictBody_mask_none E env ps r hm
        rw [heq]
        rcases runInference_cases E ps PipeKind.img2img r args (preTraceOf E env r) false with
          ⟨cls, paths, hs, heq2⟩ | ⟨hs, heq2⟩ <;> rw [heq2]
        · constructor
          · intro _
            refine ⟨?_, ?_, ?_, ?_, ?_, ?_, ?_⟩
            · exact getLast_cleanup _ false
            · simp [cleanupTrace]
            · simp [cleanupTrace]
            · simp [cleanupTrace]
            · simp [cleanupTrace]
            · simp [cleanupTrace]
            · intro hmask
              simp only [hm, Option.isSome_none] at hmask
              exact absurd hmask (by simp)
          · intro hc
            simp [outputOk] at hc
        · constructor
          · intro hc
            simp [outputOk] at hc
          · intro _
            simp only [List.mem_append, List.mem_singleton]
            refine ⟨?_, ?_, ?_, ?_, ?_, ?_, ?_⟩ <;>
              rintro (hc | hc) <;>
              first
                | exact hpre.2.1 hc
                | exact hpre.2.2.1 hc
                | exact hpre.2.2.2.1 hc
                | exact hpre.2.2.2.2.1 hc
                | exact hpre.2.2.2.2.2.1 hc
                | exact hpre.2.2.2.2.2.2.1 hc
                | exact hpre.2.2.2.2.2.2.2 hc
                | exact Effect.noConfusion hc
    | some m =>
        by_cases hres : r.resolution = "original"
        · by_cases hsz : (env.fileImage m).width ≠ (env.fileImage r.image).width ∨
            (env.fileImage m).height ≠ (env.fileImage r.image).height
          · rw [predictBody_mask_size_mismatch E env ps r m hm hres hsz]
            constructor
            · intro hc
              simp [outputOk] at hc
            · intro _
              simp only [List.mem_append, List.mem_singleton]
              refine ⟨?_, ?_, ?_, ?_, ?_, ?_, ?_⟩ <;>
                rintro (hc | hc) <;>
                first
                  | exact hpre.2.1 hc
                  | exact hpre.2.2.1 hc
                  | exact hpre.2.2.2.1 hc
                  | exact hpre.2.2.2.2.1 hc
                  | exact hpre.2.2.2.2.2.1 hc
                  | exact hpre.2.2.2.2.2.2.1 hc
                  | exact hpre.2.2.2.2.2.2.2 hc
                  | exact Effect.noConfusion hc
          · obtain ⟨args, heq⟩ := predictBody_mask_some_ok E env ps r m hm hres hsz
            rw [heq]
            rcases runInference_cases E ps PipeKind.inpaint r args
              (preTraceOf E env r ++ [Effect.loadMask m]) true with
              ⟨cls, paths, hs, heq2⟩ | ⟨hs, heq2⟩ <;> rw [heq2]
            · constructor
              · intro _
                refine ⟨?_, ?_, ?_, ?_, ?_, ?_, ?_⟩
                · exact getLast_cleanup _ true
                · simp [cleanupTrace]
                · simp [cleanupTrace]
                · simp [cleanupTrace]
                · simp [cleanupTrace]
                · simp [cleanupTrace]
                · intro _
                  simp [cleanupTrace]
              · intro hc
                simp [outputOk] at hc
            · constructor
              · intro hc
                simp [outputOk] at hc
              · intro _
                simp only [List.mem_append, List.mem_singleton]
                refine ⟨?_, ?_, ?_, ?_, ?_, ?_, ?_⟩ <;>
                  rintro ((hc | hc) | hc) <;>
                  first
                    | exact hpre.2.1 hc
                    | exact hpre.2.2.1 hc
                    | exact hpre.2.2.2.1 hc
                    | exact hpre.2.2.2.2.1 hc
                    | exact hpre.2.2.2.2.2.1 hc
                    | exact hpre.2.2.2.2.2.2.1 hc
                    | exact hpre.2.2.2.2.2.2.2 hc
                    | exact Effect.noConfusion hc
        · rw [predictBody_mask_res_ne E env ps r m hm hres]
          constructor
          · intro hc
            simp [outputOk] at hc
          · intro _
            simp only [List.mem_append, List.mem_singleton]
            refine ⟨?_, ?_, ?_, ?_, ?_, ?_, ?_⟩ <;>
              rintro (hc | hc) <;>
              first
                | exact hpre.2.1 hc
                | exact hpre.2.2.1 hc
                | exact hpre.2.2.2.1 hc
                | exact hpre.2.2.2.2.1 hc
                | exact hpre.2.2.2.2.2.1 hc
                | exact hpre.2.2.2.2.2.2.1 hc
                | exact hpre.2.2.2.2.2.2.2 hc
                | exact Effect.noConfusion hc
  · rw [if_neg hv]
    constructor
    · intro hc
      simp [outputOk] at hc
    · intro _
      simp

/-- Witness for C4 (amended): on a successful request the trace ends with the
cache release and contains the generator deletion; on a failing request the
cache is never released. -/
theorem C4_cleanup_only_on_success_witness :
    ((predict sampleExternals sampleEnv samplePipes reqPlain).trace.getLast?
        = some Effect.emptyCache ∧
      Effect.delGenerator ∈ (predict sampleExternals sampleEnv samplePipes reqPlain).trace) ∧
    Effect.emptyCache ∉ (predict sampleExternals sampleEnv samplePipes reqMask2048).trace := by
  have hok : outputOk (predict sampleExternals sampleEnv samplePipes reqPlain).output = true := by
    rw [predict, if_pos (by simp [validRequest, reqPlain, SCHEDULERS]; norm_num)]
    simp [predictBody, runInference, reqPlain, SCHEDULERS, outputOk]
  have herr : outputOk (predict sampleExternals sampleEnv samplePipes reqMask2048).output = false := by
    rw [predict, if_pos (by simp [validRequest, reqMask2048, reqPlain, SCHEDULERS]; norm_num)]
    rw [predictBody_mask_res_ne sampleExternals sampleEnv samplePipes reqMask2048
      "mask.png" rfl (by simp [reqMask2048, reqPlain])]
    rfl
  have h1 := (C4_cleanup_only_on_success sampleExternals sampleEnv samplePipes reqPlain).1 hok
  have h2 := (C4_cleanup_only_on_success sampleExternals sampleEnv samplePipes reqMask2048).2 herr
  exact ⟨⟨h1.1, h1.2.1⟩, h2.2.2.2.2.2.2⟩

/-- Counterexample to C4 as stated: a request failing the mask size check
returns an error and its trace contains neither any tensor deletion nor a
cache release — cleanup is not attempted on the failure path. -/
theorem C4_counterexample :
    outputOk (predict sampleExternals envMismatch samplePipes reqMaskBadSize).output = false ∧
    Effect.emptyCache ∉ (predict sampleExternals envMismatch samplePipes reqMaskBadSize).trace ∧
    Effect.delGenerator ∉ (predict sampleExternals envMismatch samplePipes reqMaskBadSize).trace := by
  have hv : validRequest reqMaskBadSize = true := by
    simp [validRequest, reqMaskBadSize, reqPlain, SCHEDULERS]
    norm_num
  have hsz : (envMismatch.fileImage "mask.png").width ≠
      (envMismatch.fileImage reqMaskBadSize.image).width ∨
      (envMismatch.fileImage "mask.png").height ≠
      (envMismatch.fileImage reqMaskBadSize.image).height := by
    left
    simp [envMismatch, reqMaskBadSize, reqPlain, img256, img512]
  rw [predict, if_pos hv]
  rw [predictBody_mask_size_mismatch sampleExternals envMismatch samplePipes
    reqMaskBadSize "mask.png" rfl rfl hsz]
  have hpre := preTraceOf_no_late_effects sampleExternals envMismatch reqMaskBadSize
  refine ⟨rfl, ?_, ?_⟩ <;>
    · simp only [List.mem_append, List.mem_singleton]
      rintro (hc | hc)
      · first
          | exact hpre.2.2.2.2.2.2.2 hc
          | exact hpre.2.1 hc
      · exact Effect.noConfusion hc

/-- C8. Scheduler resolution succeeds for exactly the four names DDIM,
DPMSolverMultistep, K_EULER_ANCESTRAL, and K_EULER, each mapping to a
distinct scheduler class; the scheduler installed for the request is
constructed from the currently-loaded pipeline's scheduler configuration
(`SCHEDULERS[name].from_config(pipe.scheduler.config)`); any other scheduler
name is rejected with an InvalidArgument error at the request boundary,
before any effect is performed. -/
theorem C8_scheduler_registry :
    (∀ s : String, (SCHEDULERS s).isSome = true ↔
      (s = "DDIM" ∨ s = "DPMSolverMultistep" ∨ s = "K_EULER_ANCESTRAL" ∨
        s = "K_EULER")) ∧
    (SCHEDULERS "DDIM" = some SchedClass.DDIMScheduler ∧
     SCHEDULERS "DPMSolverMultistep" = some SchedClass.DPMSolverMultistepScheduler ∧
     SCHEDULERS "K_EULER_ANCESTRAL" = some SchedClass.EulerAncestralDiscreteScheduler ∧
     SCHEDULERS "K_EULER" = some SchedClass.EulerDiscreteScheduler) ∧
    List.Pairwise (fun a b => SCHEDULERS a ≠ SCHEDULERS b)
      ["DDIM", "DPMSolverMultistep", "K_EULER_ANCESTRAL", "K_EULER"] ∧
    (∀ (E : Externals) (env : Env) (ps : PipesState) (r : Request)
        (cls : SchedClass),
      validRequest r = true → r.mask = none →
      SCHEDULERS r.scheduler = some cls →
      (predict E env ps r).pipes.img2img.scheduler =
        SchedClass.from_config cls ps.img2img.scheduler.config) ∧
    (∀ (E : Externals) (env : Env) (ps : PipesState) (r : Request),
      SCHEDULERS r.scheduler = none →
      (predict E env ps r).output = Except.error PredictError.boundaryInvalid ∧
      (predict E env ps r).trace = []) := by
  refine ⟨?_, ⟨rfl, rfl, rfl, rfl⟩, by decide, ?_, ?_⟩
  · intro s
    unfold SCHEDULERS
    split_ifs with a b c d <;> simp_all
  · intro E env ps r cls hv hm hs
    rw [predict, if_pos hv]
    obtain ⟨args, heq⟩ := predictBody_mask_none E env ps r hm
    rw [heq]
    rcases runInference_cases E ps PipeKind.img2img r args (preTraceOf E env r) false with
      ⟨cls', paths, hs', heq2⟩ | ⟨hs', heq2⟩
    · rw [heq2]
      rw [hs'] at hs
      injection hs with hcls
      rw [hcls]
      rfl
    · rw [hs'] at hs
      exact Option.noConfusion hs
  · intro E env ps r hs
    have hv : ¬(validRequest r = true) := by
      simp [validRequest, hs]
    rw [predict, if_neg hv]
    exact ⟨rfl, rfl⟩

/-- Witness for C8: DDIM resolves, an unknown name is rejected, and the
concrete request installs a DDIM scheduler built from the img2img pipeline's
current configuration. -/
theorem C8_scheduler_registry_witness :
    (SCHEDULERS "DDIM").isSome = true ∧
    (SCHEDULERS "unknown").isSome = false ∧
    (predict sampleExternals sampleEnv samplePipes reqPlain).pipes.img2img.scheduler =
      SchedClass.from_config SchedClass.DDIMScheduler
        samplePipes.img2img.scheduler.config := by
  have h := C8_scheduler_registry
  refine ⟨(h.1 "DDIM").mpr (Or.inl rfl), ?_, ?_⟩
  · cases hs : (SCHEDULERS "unknown").isSome
    · rfl
    · have hcon := (h.1 "unknown").mp hs
      simp at hcon
  · exact h.2.2.2.1 sampleExternals sampleEnv samplePipes reqPlain
      SchedClass.DDIMScheduler
      (by simp [validRequest, reqPlain, SCHEDULERS]; norm_num) rfl rfl

/-- Every trace of a boundary-valid `predict` call starts with the
pre-inference effects. -/
theorem predict_trace_pre (E : Externals) (env : Env) (ps : PipesState)
    (r : Request) (hv : validRequest r = true) :
    ∃ rest, (predict E env ps r).trace = preTraceOf E env r ++ rest := by
  rw [predict, if_pos hv]
  cases hm : r.mask with
  | none =>
      obtain ⟨args, heq⟩ := predictBody_mask_none E env ps r hm
      rw [heq]
      rcases runInference_cases E ps PipeKind.img2img r args (preTraceOf E env r) false with
        ⟨cls, paths, hs, heq2⟩ | ⟨hs, heq2⟩ <;> rw [heq2]
      · exact ⟨[Effect.setSafetyCheckerNone, Effect.setScheduler cls,
          Effect.enableXformers, Effect.diffusionInfer PipeKind.img2img] ++
          paths.map Effect.save ++ cleanupTrace false, by simp [List.append_assoc]⟩
      · exact ⟨[Effect.setSafetyCheckerNone], rfl⟩
  | some m =>
      by_cases hres : r.resolution = "original"
      · by_cases hsz : (env.fileImage m).width ≠ (env.fileImage r.image).width ∨
          (env.fileImage m).height ≠ (env.fileImage r.image).height
        · rw [predictBody_mask_size_mismatch E env ps r m hm hres hsz]
          exact ⟨_, rfl⟩
        · obtain ⟨args, heq⟩ := predictBody_mask_some_ok E env ps r m hm hres hsz
          rw [heq]
          rcases runInference_cases E ps PipeKind.inpaint r args
            (preTraceOf E env r ++ [Effect.loadMask m]) true with
            ⟨cls, paths, hs, heq2⟩ | ⟨hs, heq2⟩ <;> rw [heq2]
          · exact ⟨[Effect.loadMask m] ++ [Effect.setSafetyCheckerNone,
              Effect.setScheduler cls, Effect.enableXformers,
              Effect.diffusionInfer PipeKind.inpaint] ++
              paths.map Effect.save ++ cleanupTrace true, by simp [List.append_assoc]⟩
          · exact ⟨[Effect.loadMask m] ++ [Effect.setSafetyCheckerNone],
              by simp [List.append_assoc]⟩
      · rw [predictBody_mask_res_ne E env ps r m hm hres]
        exact ⟨_, rfl⟩

/-- C10. Whenever the seed parameter is absent, `predict` draws exactly 2
bytes of OS entropy and derives the seed as the big-endian integer of those
2 bytes, so the derived seed always lies in [0, 65535]; conversely every
value in [0, 65535] is the derivation of some pair of bytes, so exactly
65536 distinct randomly-derived seeds are possible. -/
theorem C10_seed_two_bytes (E : Externals) (env : Env) (ps : PipesState)
    (r : Request) (hv : validRequest r = true) (hseed : r.seed = none) :
    Effect.urandomDraw 2 ∈ (predict E env ps r).trace ∧
    Effect.mkGenerator (intFromBytes2BE env.urandomByte0 env.urandomByte1) ∈
      (predict E env ps r).trace ∧
    0 ≤ intFromBytes2BE env.urandomByte0 env.urandomByte1 ∧
    intFromBytes2BE env.urandomByte0 env.urandomByte1 < 65536 ∧
    (∀ s : ℤ, 0 ≤ s → s < 65536 → ∃ b0 b1 : Fin 256, intFromBytes2BE b0 b1 = s) := by
  obtain ⟨rest, htr⟩ := predict_trace_pre E env ps r hv
  rw [htr]
  have hb0 := env.urandomByte0.isLt
  have hb1 := env.urandomByte1.isLt
  have hmem1 : Effect.urandomDraw 2 ∈ preTraceOf E env r := by
    unfold preTraceOf
    rw [hseed]
    simp
  have hmem2 : Effect.mkGenerator (intFromBytes2BE env.urandomByte0 env.urandomByte1) ∈
      preTraceOf E env r := by
    unfold preTraceOf resolveSeed
    rw [hseed]
    simp
  refine ⟨List.mem_append_left _ hmem1, List.mem_append_left _ hmem2, ?_, ?_, ?_⟩
  · unfold intFromBytes2BE
    omega
  · unfold intFromBytes2BE
    omega
  · intro s hs0 hs1
    refine ⟨⟨s.toNat / 256, by omega⟩, ⟨s.toNat % 256, by omega⟩, ?_⟩
    unfold intFromBytes2BE
    simp only []
    omega

/-- Witness for C10 at a concrete seedless request. -/
theorem C10_seed_two_bytes_witness :
    Effect.urandomDraw 2 ∈
      (predict sampleExternals sampleEnv samplePipes reqNoSeed).trace ∧
    intFromBytes2BE sampleEnv.urandomByte0 sampleEnv.urandomByte1 < 65536 ∧
    (∃ b0 b1 : Fin 256, intFromBytes2BE b0 b1 = 65535) := by
  have h := C10_seed_two_bytes sampleExternals sampleEnv samplePipes reqNoSeed
    (by simp [validRequest, reqNoSeed, reqPlain, SCHEDULERS]; norm_num) rfl
  exact ⟨h.1, h.2.2.2.1, h.2.2.2.2 65535 (by norm_num) (by norm_num)⟩

end MagicImageRefiner
